import Mathlib

/-!
Verification of the TaxAutomationApp front end.

This file gives a shallow embedding of the data model and the state-handling
functions of the repository (React component state is modelled as explicit
records, event handlers as pure state-transition functions, and the remote
HTTP service as an explicit response argument), and proves or refutes the
stated properties about them.

Sources embedded here:
- `src/frontend/src/App.js`: `handleNavigation` and its permission guard.
- `src/frontend/src/pages/ComplianceTable.jsx` (concatenated bundle):
  `Sidebar.isAllowed`, and the compliance tracker's `toggleStatus`,
  `addClient`, `deleteClient`.
- `src/frontend/src/pages/AdminDashboard.jsx`: the `saveUsersToBackend`
  read-merge-write roster update.
- `src/frontend/src/modules/DirectTax/TdsOdoo.jsx`, `Reco26AS`
  (`src/unnamed/part_000`), `Gstr2bOdoo` (`src/unnamed/part_004`),
  `src/frontend/src/modules/IndirectTax/Gstr1Zoho.jsx`:
  upload/submit/remove-file workflow state.
- `src/frontend/src/modules/DirectTax/TdsChallan.jsx`: the multi-step
  analyze/fill/finalize challan workflow.
-/

/-! ## JavaScript-primitive helpers

Small computable counterparts of the JavaScript primitives the source uses:
`String.prototype.startsWith`, `String.prototype.trim`, object-key
get/update (`obj[k]`, `{...obj, [k]: v}`), and `Array.prototype.filter`
by index. -/

/-- JS `s.startsWith(p)`. -/
def strStartsWith (s p : String) : Bool :=
  p.data.isPrefixOf s.data

/-- JS `s.trim()`: strip leading and trailing whitespace. -/
def jsTrim (s : String) : String :=
  ⟨((s.data.dropWhile Char.isWhitespace).reverse.dropWhile Char.isWhitespace).reverse⟩

/-- JS object read `obj[key]` on an object modelled as an ordered
association list (JS objects preserve string-key insertion order). -/
def jsObjGet {α : Type} (m : List (String × α)) (key : String) : Option α :=
  (m.find? (fun p => p.fst == key)).map (fun p => p.snd)

/-- JS object update `{...obj, [key]: v}`: an existing key keeps its
position and gets the new value; a fresh key is appended. -/
def jsObjSet {α : Type} (m : List (String × α)) (key : String) (v : α) : List (String × α) :=
  if m.any (fun p => p.fst == key) then
    m.map (fun p => if p.fst == key then (p.fst, v) else p)
  else m ++ [(key, v)]

/-- JS `arr.filter((_, index) => index !== i)`. -/
def removeAtIndex {α : Type} (l : List α) (i : Nat) : List α :=
  (l.enum.filter (fun p => p.fst ≠ i)).map (fun p => p.snd)

/-! ## Session user and access policy

`User` is the session/roster user record (`App.js` / `AdminDashboard.jsx`).
`isAllowed` is `Sidebar.isAllowed` (ComplianceTable.jsx bundle, the Sidebar
component); `requiredPermission` and `navBlocked` come from
`App.handleNavigation`. -/

structure User where
  id : Nat
  username : String
  password : String
  name : String
  role : String
  status : String
  restrictedModules : List String
deriving DecidableEq, Repr

/-- The permission category `handleNavigation` derives from a module id
(`App.js` lines 37-44): ids starting `tds`, or equal to `26as_reco` /
`fixed_assets`, give `direct_tax`; ids starting `gstr` give `indirect_tax`;
everything else gives the empty string (no required permission). -/
def requiredPermission (moduleId : String) : String :=
  let p := if strStartsWith moduleId "tds" || moduleId == "26as_reco" || moduleId == "fixed_assets"
           then "direct_tax" else ""
  if strStartsWith moduleId "gstr" then "indirect_tax" else p

/-- `Sidebar.isAllowed` (ComplianceTable.jsx bundle, lines 492-501):
admin is always allowed; `compliances` is always allowed; otherwise the
module id itself is looked up in `user.restrictedModules`. -/
def isAllowed (user : User) (moduleId : String) : Bool :=
  if user.role == "admin" then true
  else if moduleId == "compliances" then true
  else if user.restrictedModules.contains moduleId then false
  else true

/-- The guard condition of `App.handleNavigation` (App.js line 46):
navigation is intercepted when the user is not admin, the module derives a
non-empty required permission, and that permission is in
`user.restrictedModules`. (The JS also tests `user.restrictedModules &&`,
which is a null guard; the list always exists in this model.) -/
def navBlocked (user : User) (moduleId : String) : Bool :=
  user.role != "admin" && requiredPermission moduleId != "" &&
    user.restrictedModules.contains (requiredPermission moduleId)

/-- The part of the top-level `App` component state that
`handleNavigation` touches. -/
structure AppState where
  currentModule : String
  mobileMenuOpen : Bool
  showRequestModal : Bool
  requestedModule : String
deriving DecidableEq, Repr

/-- `App.handleNavigation` (App.js lines 36-54) as a state transition.
When blocked it pre-fills the request dialog with the human-readable
category name and opens the modal, leaving `currentModule` untouched and
performing no network call; otherwise it navigates and closes the mobile
menu. -/
def handleNavigation (user : User) (s : AppState) (moduleId : String) : AppState :=
  if navBlocked user moduleId then
    { s with
      requestedModule := if requiredPermission moduleId == "direct_tax" then "Direct Tax" else "Indirect Tax",
      showRequestModal := true }
  else
    { s with currentModule := moduleId, mobileMenuOpen := false }

/-! ## Generic workflow screens

A summary row returned by the backend is a JSON object, modelled as an
ordered association list of string fields. The remote service's reply to a
submit is modelled by `ApiResult`. -/

/-- One summary row of a backend response (a JSON object). -/
def RowObj : Type := List (String × String)

instance : DecidableEq RowObj := by
  unfold RowObj
  infer_instance

/-- Outcome of one `fetch` in the generic upload screens: a 2xx JSON body
`{message, download_url, filename?, summary_data?}`, a non-2xx body with an
optional `error` string, or a thrown network/parse exception. -/
inductive ApiResult where
  | ok (message : String) (download_url : String) (filename : Option String)
      (summary_data : Option (List RowObj))
  | httpError (error : Option String)
  | networkFailure
deriving DecidableEq

/-- Component state of `TdsOdoo` (TdsOdoo.jsx lines 16-21). Files are
identified by name. -/
structure TdsOdooState where
  files : List String
  reportName : String
  status : String
  message : String
  downloadUrl : Option String
  summaryData : List RowObj
deriving DecidableEq

/-- `TdsOdoo.removeFile` (TdsOdoo.jsx lines 34-37): drop the file at the
given index and set status to `idle`. Nothing else is touched. -/
def tdsOdooRemoveFile (s : TdsOdooState) (indexToRemove : Nat) : TdsOdooState :=
  { s with files := removeAtIndex s.files indexToRemove, status := "idle" }

/-- `TdsOdoo.handleRunAutomation` (TdsOdoo.jsx lines 39-69). The returned
`Bool` records whether a network call was made. With no files the handler
returns silently before any fetch. -/
def tdsOdooSubmit (s : TdsOdooState) (r : ApiResult) : TdsOdooState × Bool :=
  if s.files.length = 0 then (s, false)
  else
    match r with
    | .ok msg url _ summary =>
        ({ s with status := "success", message := msg,
                  downloadUrl := some ("https://taxautomationapp.onrender.com" ++ url),
                  summaryData := summary.getD [] }, true)
    | .httpError e =>
        ({ s with status := "error", message := e.getD "Server Error" }, true)
    | .networkFailure =>
        ({ s with status := "error", message := "Failed to connect to Python Backend." }, true)

/-- Component state of `Reco26AS` (src/unnamed/part_000, lines 20-26). -/
structure Reco26ASState where
  file : Option String
  reportName : String
  status : String
  message : String
  downloadUrl : Option String
  finalFileName : String
  summaryData : List RowObj
deriving DecidableEq

/-- `Reco26AS.removeFile` (part_000 lines 38-41). -/
def reco26asRemoveFile (s : Reco26ASState) : Reco26ASState :=
  { s with file := none, status := "idle" }

/-- `Reco26AS.handleRunAutomation` (part_000 lines 43-73). The `Bool`
records whether a network call was made: `if (!file) return;` exits
silently, leaving the state untouched. -/
def reco26asSubmit (s : Reco26ASState) (r : ApiResult) : Reco26ASState × Bool :=
  match s.file with
  | none => (s, false)
  | some _ =>
      match r with
      | .ok msg url fn summary =>
          ({ s with status := "success", message := msg,
                    downloadUrl := some ("http://127.0.0.1:5000" ++ url),
                    finalFileName := fn.getD "26AS_Converted.xlsx",
                    summaryData := summary.getD [] }, true)
      | .httpError e =>
          ({ s with status := "error", message := e.getD "Server Error" }, true)
      | .networkFailure =>
          ({ s with status := "error", message := "Failed to connect to Python Backend." }, true)

/-- The four named register slots of `Gstr2bOdoo`
(src/unnamed/part_004, lines 17-22). -/
structure Gstr2bFiles where
  regular_cgst : Option String
  regular_igst : Option String
  rcm_cgst : Option String
  rcm_igst : Option String
deriving DecidableEq

/-- The slot keys of `Gstr2bOdoo.files`. -/
inductive Gstr2bSlot where
  | regular_cgst | regular_igst | rcm_cgst | rcm_igst
deriving DecidableEq

/-- Component state of `Gstr2bOdoo` (part_004 lines 16-29). -/
structure Gstr2bState where
  files : Gstr2bFiles
  reportName : String
  status : String
  message : String
  downloadUrl : Option String
  finalFileName : String
  summaryData : List RowObj
deriving DecidableEq

/-- Write one slot of `Gstr2bOdoo.files` (`{...prev, [slot]: v}`). -/
def gstr2bSetSlot (f : Gstr2bFiles) (slot : Gstr2bSlot) (v : Option String) : Gstr2bFiles :=
  match slot with
  | .regular_cgst => { f with regular_cgst := v }
  | .regular_igst => { f with regular_igst := v }
  | .rcm_cgst => { f with rcm_cgst := v }
  | .rcm_igst => { f with rcm_igst := v }

/-- JS `Object.values(files).some(f => f !== null)`. -/
def gstr2bAnyFile (f : Gstr2bFiles) : Bool :=
  f.regular_cgst.isSome || f.regular_igst.isSome || f.rcm_cgst.isSome || f.rcm_igst.isSome

/-- `Gstr2bOdoo.removeFile` (part_004 lines 41-44): clear the slot and set
status to `idle`; message, download URL and summary are untouched. -/
def gstr2bRemoveFile (s : Gstr2bState) (slot : Gstr2bSlot) : Gstr2bState :=
  { s with files := gstr2bSetSlot s.files slot none, status := "idle" }

/-- `Gstr2bOdoo.handleRunAutomation` (part_004 lines 46-85). With every
slot empty it sets an error message and status `error` and returns before
any fetch (the returned `Bool` records whether a fetch happened). -/
def gstr2bSubmit (s : Gstr2bState) (r : ApiResult) : Gstr2bState × Bool :=
  if gstr2bAnyFile s.files = false then
    ({ s with message := "Please upload at least one file.", status := "error" }, false)
  else
    match r with
    | .ok msg url fn summary =>
        ({ s with status := "success", message := msg,
                  downloadUrl := some ("https://taxautomationapp.onrender.com" ++ url),
                  finalFileName := fn.getD "GSTR2B_Odoo_Processed.xlsx",
                  summaryData := summary.getD [] }, true)
    | .httpError e =>
        ({ s with status := "error", message := e.getD "Server Error" }, true)
    | .networkFailure =>
        ({ s with status := "error", message := "Failed to connect to Python Backend." }, true)

/-- The four named export slots of `Gstr1Zoho`
(Gstr1Zoho.jsx lines 12-17). -/
structure Gstr1ZohoFiles where
  file_invoice_details : Option String
  file_credit_note_details : Option String
  file_invoice_credit_notes : Option String
  file_export_invoices : Option String
deriving DecidableEq

/-- Component state of `Gstr1Zoho` (Gstr1Zoho.jsx lines 10-24). -/
structure Gstr1ZohoState where
  files : Gstr1ZohoFiles
  reportName : String
  status : String
  message : String
  downloadUrl : Option String
  finalFileName : String
  summaryData : List RowObj
deriving DecidableEq

/-- `Gstr1Zoho.handleRunAutomation` (Gstr1Zoho.jsx lines 41-80). With
both header slots (3 and 4) empty it sets a descriptive message and
status `error` and returns before any fetch, regardless of the two
detail slots (the returned `Bool` records whether a fetch happened). -/
def gstr1ZohoSubmit (s : Gstr1ZohoState) (r : ApiResult) : Gstr1ZohoState × Bool :=
  if s.files.file_invoice_credit_notes.isNone && s.files.file_export_invoices.isNone then
    ({ s with message := "Please upload at least one Header file (Slot 3 or 4).",
              status := "error" }, false)
  else
    match r with
    | .ok msg url fn summary =>
        ({ s with status := "success", message := msg,
                  downloadUrl := some ("https://taxautomationapp.onrender.com" ++ url),
                  finalFileName := fn.getD "GSTR1_Zoho_Processed.xlsx",
                  summaryData := summary.getD [] }, true)
    | .httpError e =>
        ({ s with status := "error", message := e.getD "Server Error" }, true)
    | .networkFailure =>
        ({ s with status := "error", message := "Failed to connect to Python Backend." }, true)

/-! ## Multi-step challan workflow (TdsChallan.jsx) -/

/-- One group returned by the challan analyze endpoint
(`{Section, "Co./Non Co.", Total_Tax_Pending}`). -/
structure ChallanGroup where
  Section : String
  CoNonCo : String
  Total_Tax_Pending : Int
deriving DecidableEq, Repr

/-- The composite card key from the render loop (TdsChallan.jsx line 191):
`` `${grp.Section}|${grp['Co./Non Co.']}` ``. -/
def groupKey (grp : ChallanGroup) : String :=
  grp.Section ++ "|" ++ grp.CoNonCo

/-- The per-group user inputs, keyed by field name
(`challan_no`, `date`, `bsr`, `amount`, `interest`, `total`). -/
def FieldObj : Type := List (String × String)

/-- Component state of `TdsChallan` (TdsChallan.jsx lines 8-17).
`inputs` is the JS object keyed by the composite group key. -/
structure ChallanState where
  step : Nat
  file : Option String
  filePath : String
  groups : List ChallanGroup
  inputs : List (String × FieldObj)
  reportName : String
  status : String
  message : String
  downloadUrl : Option String

/-- The initial `useState` values of `TdsChallan`. -/
def initialChallanState : ChallanState :=
  { step := 1, file := none, filePath := "", groups := [], inputs := [],
    reportName := "", status := "idle", message := "", downloadUrl := none }

/-- Outcome of the challan analyze fetch:
2xx `{groups, temp_file_path}`, non-2xx `{error}`, or a thrown exception. -/
inductive AnalyzeResult where
  | ok (groups : List ChallanGroup) (temp_file_path : String)
  | httpError (error : String)
  | networkFailure

/-- `TdsChallan.handleAnalyze` (TdsChallan.jsx lines 34-60): silently does
nothing with no file; on 2xx stores the groups and the server temp-file
handle and moves to step 2; on failure stays on step 1 with an error. -/
def handleAnalyze (s : ChallanState) (r : AnalyzeResult) : ChallanState :=
  match s.file with
  | none => s
  | some _ =>
      match r with
      | .ok gs tempPath =>
          { s with groups := gs, filePath := tempPath, step := 2, status := "idle" }
      | .httpError e => { s with status := "error", message := e }
      | .networkFailure => { s with status := "error", message := "Connection failed" }

/-- The JSON body `handleUpdate` posts (TdsChallan.jsx lines 68-72):
`{file_path: filePath, inputs: inputs, custom_name: reportName}`. -/
structure ChallanUpdateRequest where
  file_path : String
  inputs : List (String × FieldObj)
  custom_name : String

/-- The request body built by `TdsChallan.handleUpdate` from the current
component state. -/
def challanUpdateRequest (s : ChallanState) : ChallanUpdateRequest :=
  { file_path := s.filePath, inputs := s.inputs, custom_name := s.reportName }

/-- Outcome of the challan update fetch. -/
inductive UpdateResult where
  | ok (download_url : String)
  | httpError (error : String)
  | networkFailure

/-- `TdsChallan.handleUpdate` (TdsChallan.jsx lines 62-88) applied to the
fetch outcome: on 2xx stores the absolute download URL and moves to step 3
with status `success`; on failure only status and message change, so the
step and the per-group inputs are preserved. -/
def handleUpdate (s : ChallanState) (r : UpdateResult) : ChallanState :=
  match r with
  | .ok url =>
      { s with downloadUrl := some ("https://taxautomationapp.onrender.com" ++ url),
               step := 3, status := "success" }
  | .httpError e => { s with status := "error", message := e }
  | .networkFailure => { s with status := "error", message := "Connection failed" }

/-- `TdsChallan.handleInputChange` (TdsChallan.jsx lines 90-95):
`{...prev, [groupKey]: {...prev[groupKey], [field]: value}}`. -/
def handleInputChange (s : ChallanState) (k field value : String) : ChallanState :=
  { s with inputs := jsObjSet s.inputs k (jsObjSet ((jsObjGet s.inputs k).getD []) field value) }

/-- The `Process Another File` click handler (TdsChallan.jsx line 299):
`setStep(1); setFile(null);` and nothing else. -/
def processAnother (s : ChallanState) : ChallanState :=
  { s with step := 1, file := none }

/-! ## Admin roster merge (AdminDashboard.jsx) -/

/-- The merged master list that `AdminDashboard.saveUsersToBackend`
(AdminDashboard.jsx lines 34-54) writes back: each freshly fetched server
record is replaced by the local record with the same id when one exists,
then every local record whose id is still missing is appended (the JS
`find` runs over the growing `masterList`, hence the `foldl`). -/
def saveUsersToBackend (updatedUsers allUsers : List User) : List User :=
  let masterList := allUsers.map (fun serverUser =>
    ((updatedUsers.find? (fun u => u.id == serverUser.id)).getD serverUser))
  updatedUsers.foldl
    (fun acc localUser =>
      if acc.any (fun u => u.id == localUser.id) then acc else acc ++ [localUser])
    masterList

/-! ## Compliance tracker (ComplianceTable.jsx) -/

/-- A compliance client row. -/
structure Client where
  id : Nat
  name : String
  tds : String
  gstr1 : String
  gstr3b : String
deriving DecidableEq, Repr

/-- The three togglable fields of a client (the JS passes the field name
`'tds' | 'gstr1' | 'gstr3b'` as a string key). -/
inductive CField where
  | tds | gstr1 | gstr3b
deriving DecidableEq

/-- Dynamic field read `c[field]`. -/
def getCF (c : Client) (field : CField) : String :=
  match field with
  | .tds => c.tds
  | .gstr1 => c.gstr1
  | .gstr3b => c.gstr3b

/-- Dynamic field write `{...c, [field]: v}`. -/
def setCF (c : Client) (field : CField) (v : String) : Client :=
  match field with
  | .tds => { c with tds := v }
  | .gstr1 => { c with gstr1 := v }
  | .gstr3b => { c with gstr3b := v }

/-- The status successor of `ComplianceTable.toggleStatus`
(ComplianceTable.jsx lines 56-60): pending→done, done→na, na→pending, and
any other stored value falls through to the default `'pending'`. -/
def nextStatus (current : String) : String :=
  if current == "pending" then "done"
  else if current == "done" then "na"
  else if current == "na" then "pending"
  else "pending"

/-- `ComplianceTable.toggleStatus` (ComplianceTable.jsx lines 53-64) on the
client list: map over the clients, advancing the chosen field of the
matching id. -/
def toggleStatus (clients : List Client) (id : Nat) (field : CField) : List Client :=
  clients.map (fun c =>
    if c.id ≠ id then c else setCF c field (nextStatus (getCF c field)))

/-- JS `Math.max(...clients.map(c => c.id))` over a nonempty list,
realised as a left fold from 0 (ids are naturals). -/
def maxClientId (clients : List Client) : Nat :=
  (clients.map (fun c => c.id)).foldl max 0

/-- `ComplianceTable.addClient` (ComplianceTable.jsx lines 66-73). The
returned `Bool` records whether `saveData` ran: a name that trims to empty
is rejected before any state change or save. -/
def addClient (clients : List Client) (newClient : String) : List Client × Bool :=
  if jsTrim newClient == "" then (clients, false)
  else
    let newId := if clients.length > 0 then maxClientId clients + 1 else 1
    (clients ++ [{ id := newId, name := newClient, tds := "pending",
                   gstr1 := "pending", gstr3b := "pending" }], true)

/-- `ComplianceTable.deleteClient` (ComplianceTable.jsx lines 75-80), after
the interactive confirmation: keep every client with a different id. -/
def deleteClient (clients : List Client) (id : Nat) : List Client :=
  clients.filter (fun c => c.id ≠ id)

/-! ## Helper lemmas -/

/-- A map whose function is the identity on every element of the list is
the identity. -/
theorem map_id_of_forall {α : Type} (l : List α) (f : α → α)
    (h : ∀ a ∈ l, f a = a) : l.map f = l := by
  induction l with
  | nil => rfl
  | cons a t ih =>
      simp only [List.map_cons]
      rw [h a (by simp), ih (fun x hx => h x (by simp [hx]))]

/-- Maps by pointwise-equal functions agree. -/
theorem map_congr_pt {α β : Type} (l : List α) (f g : α → β)
    (h : ∀ a ∈ l, f a = g a) : l.map f = l.map g := by
  induction l with
  | nil => rfl
  | cons a t ih =>
      simp only [List.map_cons]
      rw [h a (by simp), ih (fun x hx => h x (by simp [hx]))]

/-- `jsObjSet` on the empty object creates the single binding. -/
theorem jsObjSet_nil {α : Type} (k : String) (v : α) :
    jsObjSet ([] : List (String × α)) k v = [(k, v)] := by
  simp [jsObjSet]

/-- Updating the only key of a one-key object keeps the key list. -/
theorem jsObjSet_keys_singleton {α : Type} (m : List (String × α)) (k : String) (v : α)
    (h : m.map Prod.fst = [k]) : (jsObjSet m k v).map Prod.fst = [k] := by
  match m with
  | [] => simp at h
  | [p] =>
      simp only [List.map_cons, List.map_nil] at h
      have hp : p.fst = k := by simpa using h
      simp [jsObjSet, hp]
  | p :: q :: r => simp at h

/-! ## Sample records used in concrete checks -/

/-- A non-admin session user whose `direct_tax` category is restricted. -/
def restrictedUser : User :=
  { id := 7, username := "emp7", password := "pw", name := "Employee Seven",
    role := "user", status := "Active", restrictedModules := ["direct_tax"] }

/-- A concrete top-level screen state sitting on the compliance tracker. -/
def complianceAppState : AppState :=
  { currentModule := "compliances", mobileMenuOpen := false,
    showRequestModal := false, requestedModule := "" }

/-! ## C1 -/

/-- C1 counterexample: for the non-admin user restricted on `direct_tax`
and the leaf module `tds_odoo` (whose derived category is `direct_tax`,
which IS in `restrictedModules`), the claim demands `isAllowed = false`,
but `Sidebar.isAllowed` looks up the module id itself — `"tds_odoo"` is
not in the list — and returns `true`. -/
theorem C1_counterexample :
    restrictedUser.role ≠ "admin" ∧
    requiredPermission "tds_odoo" = "direct_tax" ∧
    "direct_tax" ∈ restrictedUser.restrictedModules ∧
    isAllowed restrictedUser "tds_odoo" = true := by
  decide

/-- C1 amended: `Sidebar.isAllowed` tests membership of the module id
itself, not of its derived category: for a non-admin user it returns true
iff the module is `compliances` or the id is absent from
`restrictedModules` (admins always pass). The category-based rule of the
claim is instead enforced by the `handleNavigation` guard: for a non-admin
user navigation is unblocked iff the derived category is empty or absent
from `restrictedModules` (admins are never blocked). -/
theorem C1_amended (u : User) (m : String) :
    (u.role = "admin" → isAllowed u m = true ∧ navBlocked u m = false) ∧
    (u.role ≠ "admin" →
      ((isAllowed u m = true ↔ (m = "compliances" ∨ m ∉ u.restrictedModules)) ∧
       (navBlocked u m = false ↔
         (requiredPermission m = "" ∨ requiredPermission m ∉ u.restrictedModules)))) := by
  constructor
  · intro h
    constructor
    · simp [isAllowed, h]
    · simp [navBlocked, h]
  · intro h
    constructor
    · by_cases hc : m = "compliances"
      · simp [isAllowed, h, hc]
      · by_cases hm : m ∈ u.restrictedModules
        · simp [isAllowed, h, hc, hm]
        · simp [isAllowed, h, hc, hm]
    · by_cases hr : requiredPermission m = ""
      · simp [navBlocked, h, hr]
      · by_cases hm : requiredPermission m ∈ u.restrictedModules
        · simp [navBlocked, h, hr, hm]
        · simp [navBlocked, h, hr, hm]

/-- C1 amended witness: the restricted user may still click the
`tds_odoo` leaf in the sidebar, while the navigation guard blocks it. -/
theorem C1_amended_witness :
    isAllowed restrictedUser "tds_odoo" = true ∧ navBlocked restrictedUser "tds_odoo" = true := by
  constructor
  · exact (((C1_amended restrictedUser "tds_odoo").2 (by decide)).1).mpr (Or.inr (by decide))
  · have h := (((C1_amended restrictedUser "tds_odoo").2 (by decide)).2)
    have : ¬ (requiredPermission "tds_odoo" = "" ∨
              requiredPermission "tds_odoo" ∉ restrictedUser.restrictedModules) := by decide
    cases hb : navBlocked restrictedUser "tds_odoo" with
    | false => exact absurd (h.mp hb) this
    | true => rfl

/-! ## C2 -/

/-- C2: for a non-admin user whose restricted list contains the category
derived from the selected module, `handleNavigation` leaves the current
module (and the mobile-menu flag) unchanged, opens the access-request
dialog, and pre-fills it with `Direct Tax` / `Indirect Tax` according to
the category. The handler performs no network call in this branch (the
request is only sent later by `sendAccessRequest`). -/
theorem C2_blocked_nav (u : User) (s : AppState) (m : String)
    (h1 : u.role ≠ "admin")
    (h2 : requiredPermission m ≠ "")
    (h3 : requiredPermission m ∈ u.restrictedModules) :
    (handleNavigation u s m).currentModule = s.currentModule ∧
    (handleNavigation u s m).mobileMenuOpen = s.mobileMenuOpen ∧
    (handleNavigation u s m).showRequestModal = true ∧
    (requiredPermission m = "direct_tax" →
      (handleNavigation u s m).requestedModule = "Direct Tax") ∧
    (requiredPermission m = "indirect_tax" →
      (handleNavigation u s m).requestedModule = "Indirect Tax") := by
  have hb : navBlocked u m = true := by
    simp [navBlocked, h1, h2, h3]
  refine ⟨?_, ?_, ?_, ?_, ?_⟩
  · simp [handleNavigation, hb]
  · simp [handleNavigation, hb]
  · simp [handleNavigation, hb]
  · intro hd
    simp [handleNavigation, hb, hd]
  · intro hd
    simp [handleNavigation, hb, hd]

/-- C2 witness: the user with `restrictedModules = ["direct_tax"]`
selecting `tds_odoo` stays on `compliances` and gets the dialog
pre-filled with `Direct Tax`. -/
theorem C2_blocked_nav_witness :
    (handleNavigation restrictedUser complianceAppState "tds_odoo").currentModule = "compliances" ∧
    (handleNavigation restrictedUser complianceAppState "tds_odoo").showRequestModal = true ∧
    (handleNavigation restrictedUser complianceAppState "tds_odoo").requestedModule = "Direct Tax" := by
  have h := C2_blocked_nav restrictedUser complianceAppState "tds_odoo"
    (by decide) (by decide) (by decide)
  exact ⟨h.1, h.2.2.1, h.2.2.2.1 (by decide)⟩

/-! ## C3 -/

/-- An idle `Reco26AS` screen with no file selected. -/
def emptyReco26AS : Reco26ASState :=
  { file := none, reportName := "", status := "idle", message := "",
    downloadUrl := none, finalFileName := "", summaryData := [] }

/-- An idle `Gstr2bOdoo` screen with all four slots empty. -/
def emptyGstr2b : Gstr2bState :=
  { files := { regular_cgst := none, regular_igst := none, rcm_cgst := none, rcm_igst := none },
    reportName := "", status := "idle", message := "", downloadUrl := none,
    finalFileName := "", summaryData := [] }

/-- C3 counterexample: on the single-file `Reco26AS` screen, submit with
zero files performs no network call but does NOT transition to `error` —
`if (!file) return;` exits silently, the status stays `idle` and no
message is stored (the claim demands status `error` with a descriptive
message on every screen). -/
theorem C3_counterexample :
    (reco26asSubmit emptyReco26AS ApiResult.networkFailure).2 = false ∧
    (reco26asSubmit emptyReco26AS ApiResult.networkFailure).1.status = "idle" ∧
    (reco26asSubmit emptyReco26AS ApiResult.networkFailure).1.status ≠ "error" ∧
    (reco26asSubmit emptyReco26AS ApiResult.networkFailure).1.message = "" := by
  decide

/-- An idle `Gstr1Zoho` screen with all four slots empty. -/
def emptyGstr1Zoho : Gstr1ZohoState :=
  { files := { file_invoice_details := none, file_credit_note_details := none,
               file_invoice_credit_notes := none, file_export_invoices := none },
    reportName := "", status := "idle", message := "", downloadUrl := none,
    finalFileName := "", summaryData := [] }

/-- C3 amended: submitting with the screen-declared minimum file slots
empty performs no network call on each of the embedded screens, but the
status transition is per-screen, not uniform: the multi-slot screens
`Gstr2bOdoo` (all four slots empty) and `Gstr1Zoho` (both header slots
empty) transition straight to `error` with a descriptive message, while
the screens with a single required input — `Reco26AS` and likewise
`TdsOdoo` — return silently, leaving the whole state (in particular
status and message) unchanged, so no `error` is ever shown there. -/
theorem C3_amended (s26 : Reco26ASState) (sg : Gstr2bState) (st : TdsOdooState)
    (sz : Gstr1ZohoState) (r r' r'' r''' : ApiResult) :
    (s26.file = none → reco26asSubmit s26 r = (s26, false)) ∧
    (gstr2bAnyFile sg.files = false →
      gstr2bSubmit sg r' =
        ({ sg with message := "Please upload at least one file.", status := "error" }, false)) ∧
    (st.files = [] → tdsOdooSubmit st r'' = (st, false)) ∧
    (sz.files.file_invoice_credit_notes = none → sz.files.file_export_invoices = none →
      gstr1ZohoSubmit sz r''' =
        ({ sz with message := "Please upload at least one Header file (Slot 3 or 4).",
                   status := "error" }, false)) := by
  refine ⟨?_, ?_, ?_, ?_⟩
  · intro h
    simp [reco26asSubmit, h]
  · intro h
    simp [gstr2bSubmit, h]
  · intro h
    simp [tdsOdooSubmit, h]
  · intro h3 h4
    simp [gstr1ZohoSubmit, h3, h4]

/-- C3 amended witness: concrete empty screens, each evaluated — the
silent no-op on `Reco26AS` and the two error transitions. -/
theorem C3_amended_witness :
    reco26asSubmit emptyReco26AS ApiResult.networkFailure = (emptyReco26AS, false) ∧
    gstr2bSubmit emptyGstr2b ApiResult.networkFailure =
      ({ emptyGstr2b with message := "Please upload at least one file.",
                          status := "error" }, false) ∧
    gstr1ZohoSubmit emptyGstr1Zoho ApiResult.networkFailure =
      ({ emptyGstr1Zoho with message := "Please upload at least one Header file (Slot 3 or 4).",
                             status := "error" }, false) := by
  have h := C3_amended emptyReco26AS emptyGstr2b
    { files := [], reportName := "", status := "idle", message := "",
      downloadUrl := none, summaryData := [] }
    emptyGstr1Zoho
    ApiResult.networkFailure ApiResult.networkFailure ApiResult.networkFailure
    ApiResult.networkFailure
  exact ⟨h.1 (by decide), h.2.1 (by decide), h.2.2.2 (by decide) (by decide)⟩

/-! ## C4 -/

/-- A `TdsOdoo` screen that has just finished a successful run. -/
def successTdsOdoo : TdsOdooState :=
  { files := ["register.xlsx"], reportName := "2025.11 VTI", status := "success",
    message := "Done", downloadUrl := some "https://taxautomationapp.onrender.com/dl/x.xlsx",
    summaryData := [[("Section", "194C")]] }

/-- C4 counterexample: removing the file from a successful `TdsOdoo` run
resets the status to `idle` but leaves the stored message, summary rows
and download URL in place — the claim says they are cleared. -/
theorem C4_counterexample :
    (tdsOdooRemoveFile successTdsOdoo 0).status = "idle" ∧
    (tdsOdooRemoveFile successTdsOdoo 0).message = "Done" ∧
    (tdsOdooRemoveFile successTdsOdoo 0).message ≠ "" ∧
    (tdsOdooRemoveFile successTdsOdoo 0).summaryData ≠ [] ∧
    (tdsOdooRemoveFile successTdsOdoo 0).downloadUrl ≠ none := by
  decide

/-- C4 amended: on every workflow screen and from every prior state,
removing a previously added file resets the status to `idle` (so the
result panel, which renders only while status is `success`, disappears),
but the stored message, summary rows and download result are NOT cleared;
they keep their previous values. Shown for `TdsOdoo.removeFile` and
`Gstr2bOdoo.removeFile`, the two handlers the claim cites. -/
theorem C4_amended (s : TdsOdooState) (i : Nat) (sg : Gstr2bState) (slot : Gstr2bSlot) :
    ((tdsOdooRemoveFile s i).status = "idle" ∧
     (tdsOdooRemoveFile s i).files = removeAtIndex s.files i ∧
     (tdsOdooRemoveFile s i).message = s.message ∧
     (tdsOdooRemoveFile s i).summaryData = s.summaryData ∧
     (tdsOdooRemoveFile s i).downloadUrl = s.downloadUrl) ∧
    ((gstr2bRemoveFile sg slot).status = "idle" ∧
     (gstr2bRemoveFile sg slot).message = sg.message ∧
     (gstr2bRemoveFile sg slot).summaryData = sg.summaryData ∧
     (gstr2bRemoveFile sg slot).downloadUrl = sg.downloadUrl) := by
  exact ⟨⟨rfl, rfl, rfl, rfl, rfl⟩, rfl, rfl, rfl, rfl⟩

/-! ## C5 -/

instance : DecidableEq FieldObj := by
  unfold FieldObj
  infer_instance

/-- Filling fields under one fixed group key keeps the input object's key
list at exactly that key. -/
theorem challanFill_keys (fields : List (String × String)) (s : ChallanState) (k : String)
    (h : s.inputs.map Prod.fst = [k]) :
    (((fields.foldl (fun st p => handleInputChange st k p.fst p.snd) s)).inputs).map Prod.fst
      = [k] := by
  induction fields generalizing s with
  | nil => simpa using h
  | cons f rest ih =>
      simp only [List.foldl_cons]
      apply ih
      simpa [handleInputChange] using jsObjSet_keys_singleton s.inputs k _ h

/-- C5: the challan finalize step posts exactly
`{file_path, inputs, custom_name}` where `file_path` is the temp-file
handle stored verbatim by the analyze step; filling the fields of one
analyzed group produces an `inputs` object with exactly one entry under
that group's composite `Section|Co./Non Co.` key; and on a non-2xx or
failed update the step, the per-group inputs and the handle are all
preserved, with status `error` and the message set. -/
theorem C5_finalize (s : ChallanState) (fields : List (String × String)) (k e : String)
    (hfile : s.file.isSome = true) (hfields : fields ≠ []) (hinp : s.inputs = []) :
    (∀ gs tempPath,
      (handleAnalyze s (AnalyzeResult.ok gs tempPath)).filePath = tempPath ∧
      (handleAnalyze s (AnalyzeResult.ok gs tempPath)).step = 2 ∧
      (handleAnalyze s (AnalyzeResult.ok gs tempPath)).groups = gs) ∧
    (∀ s' : ChallanState, challanUpdateRequest s' =
      { file_path := s'.filePath, inputs := s'.inputs, custom_name := s'.reportName }) ∧
    ((((fields.foldl (fun st p => handleInputChange st k p.fst p.snd) s)).inputs).map Prod.fst
      = [k]) ∧
    (∀ s' : ChallanState,
      (handleUpdate s' (UpdateResult.httpError e)).step = s'.step ∧
      (handleUpdate s' (UpdateResult.httpError e)).status = "error" ∧
      (handleUpdate s' (UpdateResult.httpError e)).message = e ∧
      (handleUpdate s' (UpdateResult.httpError e)).inputs = s'.inputs ∧
      (handleUpdate s' (UpdateResult.httpError e)).filePath = s'.filePath ∧
      (handleUpdate s' UpdateResult.networkFailure).step = s'.step ∧
      (handleUpdate s' UpdateResult.networkFailure).status = "error" ∧
      (handleUpdate s' UpdateResult.networkFailure).message = "Connection failed" ∧
      (handleUpdate s' UpdateResult.networkFailure).inputs = s'.inputs) := by
  refine ⟨?_, ?_, ?_, ?_⟩
  · intro gs tempPath
    obtain ⟨f, hf⟩ := Option.isSome_iff_exists.mp hfile
    refine ⟨?_, ?_, ?_⟩ <;> simp [handleAnalyze, hf]
  · intro s'
    rfl
  · cases fields with
    | nil => exact absurd rfl hfields
    | cons f rest =>
        simp only [List.foldl_cons]
        apply challanFill_keys
        simp [handleInputChange, hinp, jsObjSet_nil]
  · intro s'
    exact ⟨rfl, rfl, rfl, rfl, rfl, rfl, rfl, rfl, rfl⟩

/-- C5 witness: the spec's scenario — analyze returns the single group
`{Section: 194C, Co./Non Co.: Co, Total_Tax_Pending: 5000}`, the user
fills its challan fields, and the finalize body carries exactly one entry
keyed `194C|Co`. -/
theorem C5_finalize_witness :
    groupKey { Section := "194C", CoNonCo := "Co", Total_Tax_Pending := 5000 } = "194C|Co" ∧
    ((([("challan_no", "12345"), ("amount", "5000")] : List (String × String)).foldl
        (fun st p => handleInputChange st "194C|Co" p.fst p.snd)
        { initialChallanState with file := some "tds_register.xlsx" }).inputs).map Prod.fst
      = ["194C|Co"] ∧
    (handleAnalyze { initialChallanState with file := some "tds_register.xlsx" }
        (AnalyzeResult.ok [{ Section := "194C", CoNonCo := "Co", Total_Tax_Pending := 5000 }]
          "/tmp/challan_tmp.xlsx")).filePath = "/tmp/challan_tmp.xlsx" := by
  have h := C5_finalize { initialChallanState with file := some "tds_register.xlsx" }
    [("challan_no", "12345"), ("amount", "5000")] "194C|Co" "Invalid input"
    (by decide) (by decide) (by decide)
  exact ⟨by decide, h.2.2.1,
    (h.1 [{ Section := "194C", CoNonCo := "Co", Total_Tax_Pending := 5000 }]
      "/tmp/challan_tmp.xlsx").1⟩

/-! ## C6 -/

/-- A finished challan run sitting on the `finalized` step. -/
def finalizedChallan : ChallanState :=
  { step := 3, file := none, filePath := "/tmp/challan_tmp.xlsx",
    groups := [{ Section := "194C", CoNonCo := "Co", Total_Tax_Pending := 5000 }],
    inputs := [("194C|Co", [("challan_no", "12345")])],
    reportName := "Oct Challans", status := "success", message := "",
    downloadUrl := some "https://taxautomationapp.onrender.com/dl/out.xlsx" }

/-- C6 counterexample: `Process Another File` runs only
`setStep(1); setFile(null);` — after it, the analyzed groups, the
per-group inputs, the temp-file handle, the report name, the status and
the download URL all still hold the previous run's values instead of
being reset to their initial ones as the claim demands. -/
theorem C6_counterexample :
    (processAnother finalizedChallan).step = 1 ∧
    (processAnother finalizedChallan).file = none ∧
    (processAnother finalizedChallan).status = "success" ∧
    (processAnother finalizedChallan).status ≠ initialChallanState.status ∧
    (processAnother finalizedChallan).inputs ≠ [] ∧
    (processAnother finalizedChallan).groups ≠ [] ∧
    (processAnother finalizedChallan).filePath = "/tmp/challan_tmp.xlsx" ∧
    (processAnother finalizedChallan).reportName = "Oct Challans" ∧
    (processAnother finalizedChallan).downloadUrl ≠ none := by
  refine ⟨rfl, rfl, rfl, by decide, by decide, by decide, rfl, rfl, by decide⟩

/-- C6 amended: the `Process Another File` action resets only the step
(back to upload) and the selected file; the analyzed groups, per-group
inputs, temp-file handle, report name, status, message and download URL
all keep their previous values. -/
theorem C6_amended (s : ChallanState) :
    (processAnother s).step = 1 ∧
    (processAnother s).file = none ∧
    (processAnother s).groups = s.groups ∧
    (processAnother s).inputs = s.inputs ∧
    (processAnother s).filePath = s.filePath ∧
    (processAnother s).reportName = s.reportName ∧
    (processAnother s).status = s.status ∧
    (processAnother s).message = s.message ∧
    (processAnother s).downloadUrl = s.downloadUrl := by
  exact ⟨rfl, rfl, rfl, rfl, rfl, rfl, rfl, rfl, rfl⟩

/-! ## C7 -/

/-- Writing a field leaves the client id unchanged. -/
theorem setCF_id (c : Client) (field : CField) (v : String) : (setCF c field v).id = c.id := by
  cases field <;> rfl

/-- Reading back a just-written field gives the written value. -/
theorem getCF_setCF (c : Client) (field : CField) (v : String) :
    getCF (setCF c field v) field = v := by
  cases field <;> rfl

/-- Overwriting a field twice keeps only the second write. -/
theorem setCF_setCF (c : Client) (field : CField) (v w : String) :
    setCF (setCF c field v) field w = setCF c field w := by
  cases field <;> rfl

/-- Writing a field's own current value is the identity. -/
theorem setCF_getCF (c : Client) (field : CField) :
    setCF c field (getCF c field) = c := by
  cases field <;> rfl

/-- Three toggles return a single client to itself when the toggled field
holds one of the three legal statuses. -/
theorem toggle_cycle_elt (i : Nat) (field : CField) (c : Client)
    (h : c.id = i → getCF c field = "pending" ∨ getCF c field = "done" ∨ getCF c field = "na") :
    (fun c : Client => if c.id ≠ i then c else setCF c field (nextStatus (getCF c field)))
      ((fun c : Client => if c.id ≠ i then c else setCF c field (nextStatus (getCF c field)))
        ((fun c : Client => if c.id ≠ i then c else setCF c field (nextStatus (getCF c field))) c))
      = c := by
  by_cases hid : c.id = i
  · have hv := h hid
    simp only [hid, ne_eq, not_true_eq_false, if_false, setCF_id, getCF_setCF, setCF_setCF]
    rcases hv with h1 | h1 | h1 <;>
      · rw [h1]
        have := setCF_getCF c field
        rw [h1] at this
        simpa [nextStatus] using this
  · simp only [ne_eq, hid, not_false_eq_true, if_true]

/-- C7 amended: three `toggleStatus` applications return the list to its
starting value whenever the toggled field of the matching client holds one
of the three legal statuses `pending`/`done`/`na`; but any OTHER stored
value is mapped to `pending` by the first toggle (the defensive default),
so for such values three toggles land on `na`, not on the starting value
as the claim asserts. -/
theorem C7_amended (clients : List Client) (i : Nat) (field : CField)
    (h : ∀ c ∈ clients, c.id = i →
      getCF c field = "pending" ∨ getCF c field = "done" ∨ getCF c field = "na") :
    toggleStatus (toggleStatus (toggleStatus clients i field) i field) i field = clients ∧
    (∀ v : String, v ≠ "pending" → v ≠ "done" → v ≠ "na" → nextStatus v = "pending") := by
  constructor
  · unfold toggleStatus
    rw [List.map_map, List.map_map]
    apply map_id_of_forall
    intro c hc
    exact toggle_cycle_elt i field c (h c hc)
  · intro v h1 h2 h3
    simp [nextStatus, h1, h2, h3]

/-- A compliance client whose stored `tds` value is outside the legal
tri-state set. -/
def bogusClient : Client :=
  { id := 1, name := "Acme", tds := "bogus", gstr1 := "pending", gstr3b := "pending" }

/-- C7 counterexample: starting from the stored value `bogus`, three
toggles of the `tds` field give `pending`, `done`, `na` — the list does
not return to its starting value, refuting the claim's `for any starting
value`. -/
theorem C7_counterexample :
    toggleStatus (toggleStatus (toggleStatus [bogusClient] 1 CField.tds) 1 CField.tds) 1 CField.tds
      ≠ [bogusClient] ∧
    (toggleStatus (toggleStatus (toggleStatus [bogusClient] 1 CField.tds) 1 CField.tds) 1
        CField.tds).map (fun c => c.tds) = ["na"] ∧
    (toggleStatus [bogusClient] 1 CField.tds).map (fun c => c.tds) = ["pending"] := by
  refine ⟨by decide, by decide, by decide⟩

/-- C7 amended witness: a client with all three fields in legal states
returns to itself after three toggles of `gstr1`. -/
theorem C7_amended_witness :
    toggleStatus (toggleStatus (toggleStatus
      [{ id := 1, name := "Acme", tds := "done", gstr1 := "na", gstr3b := "pending" }]
      1 CField.gstr1) 1 CField.gstr1) 1 CField.gstr1
      = [{ id := 1, name := "Acme", tds := "done", gstr1 := "na", gstr3b := "pending" }] :=
  (C7_amended [{ id := 1, name := "Acme", tds := "done", gstr1 := "na", gstr3b := "pending" }]
    1 CField.gstr1 (by decide)).1

/-! ## C8 -/

/-- Replacing a server record by its local match (when any) preserves the
record id, because the match is found by id equality. -/
theorem merge_replace_id (locals : List User) (su : User) :
    ((locals.find? (fun u => u.id == su.id)).getD su).id = su.id := by
  cases hf : locals.find? (fun u => u.id == su.id) with
  | none => rfl
  | some w =>
      have h := List.find?_some hf
      simp only [Option.getD_some]
      simpa using h

/-- The replaced master list mentions exactly the server ids. -/
theorem master_any_id (locals servers : List User) (x : Nat) :
    ((servers.map (fun su => (locals.find? (fun u => u.id == su.id)).getD su)).any
        (fun u => u.id == x))
      = servers.any (fun su => su.id == x) := by
  rw [List.any_map]
  induction servers with
  | nil => rfl
  | cons s t ih =>
      simp only [List.any_cons, Function.comp_apply, ih, merge_replace_id]

/-- The append phase of the merge: folding the `push if missing` step over
locals with pairwise-distinct ids appends exactly the locals whose id does
not occur in the master list. -/
theorem merge_foldl (locals : List User)
    (hdist : locals.Pairwise (fun a b => a.id ≠ b.id)) (master : List User) :
    locals.foldl
      (fun acc localUser =>
        if acc.any (fun u => u.id == localUser.id) then acc else acc ++ [localUser])
      master
      = master ++ locals.filter (fun lu => !(master.any (fun u => u.id == lu.id))) := by
  induction locals generalizing master with
  | nil => simp
  | cons lu rest ih =>
      have hd : ∀ b ∈ rest, lu.id ≠ b.id := (List.pairwise_cons.mp hdist).1
      have ht := (List.pairwise_cons.mp hdist).2
      simp only [List.foldl_cons, List.filter_cons]
      by_cases hany : (master.any (fun u => u.id == lu.id)) = true
      · rw [if_pos hany, ih ht master]
        simp [hany]
      · rw [if_neg hany, ih ht (master ++ [lu])]
        have hfil : rest.filter (fun r => !((master ++ [lu]).any (fun u => u.id == r.id)))
                  = rest.filter (fun r => !(master.any (fun u => u.id == r.id))) := by
          apply List.filter_congr
          intro r hr
          have hne : lu.id ≠ r.id := hd r hr
          simp [List.any_append, hne]
        rw [hfil]
        simp [hany]

/-- In a list with pairwise-distinct ids, an id determines the record. -/
theorem pairwise_id_unique (locals : List User)
    (hdist : locals.Pairwise (fun a b => a.id ≠ b.id))
    (u v : User) (hu : u ∈ locals) (hv : v ∈ locals) (h : u.id = v.id) : u = v := by
  by_contra hne
  exact List.Pairwise.forall (fun _ _ hab => Ne.symm hab) hdist hu hv hne h

/-- C8: `saveUsersToBackend` writes back the server list with every
id-matched record replaced by its local version, followed by exactly the
local records whose id is absent server-side. In particular: a server
record with no local match (e.g. an admin account) is kept unchanged; a
local record with a server-side match replaces it and appears in the
write; a genuinely new local record is appended. Locals are assumed to
have pairwise-distinct ids, per the data model. -/
theorem C8_merge (locals servers : List User)
    (hdist : locals.Pairwise (fun a b => a.id ≠ b.id)) :
    (saveUsersToBackend locals servers =
      (servers.map (fun su => (locals.find? (fun u => u.id == su.id)).getD su))
        ++ locals.filter (fun lu => !(servers.any (fun su => su.id == lu.id)))) ∧
    (∀ su ∈ servers, (∀ lu ∈ locals, lu.id ≠ su.id) →
      su ∈ saveUsersToBackend locals servers) ∧
    (∀ lu ∈ locals, (∀ su ∈ servers, su.id ≠ lu.id) →
      lu ∈ saveUsersToBackend locals servers) ∧
    (∀ su ∈ servers, ∀ lu ∈ locals, lu.id = su.id →
      lu ∈ saveUsersToBackend locals servers) := by
  have hmain : saveUsersToBackend locals servers =
      (servers.map (fun su => (locals.find? (fun u => u.id == su.id)).getD su))
        ++ locals.filter (fun lu => !(servers.any (fun su => su.id == lu.id))) := by
    unfold saveUsersToBackend
    rw [merge_foldl locals hdist]
    congr 1
    apply List.filter_congr
    intro lu _
    rw [master_any_id]
  refine ⟨hmain, ?_, ?_, ?_⟩
  · intro su hsu hno
    rw [hmain]
    apply List.mem_append_left
    have hf : locals.find? (fun u => u.id == su.id) = none := by
      apply List.find?_eq_none.mpr
      intro x hx
      simp [hno x hx]
    have hrep : (locals.find? (fun u => u.id == su.id)).getD su = su := by
      rw [hf]
      rfl
    exact hrep ▸ List.mem_map_of_mem _ hsu
  · intro lu hlu hno
    rw [hmain]
    apply List.mem_append_right
    apply List.mem_filter.mpr
    refine ⟨hlu, ?_⟩
    simp only [Bool.not_eq_true', List.any_eq_false]
    intro su hsu
    simp [hno su hsu]
  · intro su hsu lu hlu hid
    rw [hmain]
    apply List.mem_append_left
    have hsome : (locals.find? (fun u => u.id == su.id)).isSome = true := by
      rw [List.find?_isSome]
      exact ⟨lu, hlu, by simp [hid]⟩
    obtain ⟨w, hf⟩ := Option.isSome_iff_exists.mp hsome
    have hw_mem : w ∈ locals := List.mem_of_find?_eq_some hf
    have hw_id : w.id = su.id := by simpa using List.find?_some hf
    have hw_lu : w = lu :=
      pairwise_id_unique locals hdist w lu hw_mem hlu (by rw [hw_id, hid])
    have hrep : (locals.find? (fun u => u.id == su.id)).getD su = lu := by
      rw [hf, Option.getD_some, hw_lu]
    exact hrep ▸ List.mem_map_of_mem _ hsu

/-- The backend-side admin account, never shown in the dashboard. -/
def adminUser : User :=
  { id := 1, username := "admin", password := "root", name := "Admin",
    role := "admin", status := "Active", restrictedModules := [] }

/-- The server-side copy of employee 7. -/
def serverEmp : User :=
  { id := 7, username := "emp7", password := "pw", name := "Employee Seven",
    role := "user", status := "Active", restrictedModules := [] }

/-- The locally edited copy of employee 7, now restricted. -/
def localEmp : User :=
  { id := 7, username := "emp7", password := "pw", name := "Employee Seven",
    role := "user", status := "Active", restrictedModules := ["indirect_tax"] }

/-- C8 witness: merging the locally edited employee against a server list
holding the admin and the stale employee keeps the admin unchanged and
replaces the employee with the local version. -/
theorem C8_merge_witness :
    saveUsersToBackend [localEmp] [adminUser, serverEmp] = [adminUser, localEmp] := by
  have h := (C8_merge [localEmp] [adminUser, serverEmp] (by simp)).1
  rw [h]
  decide

/-! ## C9 -/

/-- C9: `addClient` rejects names that trim to empty, leaving the list
unchanged and performing no save; otherwise it appends a client whose id
is one more than the current maximum id (1 on an empty list) with all
three status fields `pending`. The spec's scenario: from
`[{id: 1, name: Acme}]`, adding `Beta` yields id 2, and deleting id 1
leaves only id 2. -/
theorem C9_addClient (clients : List Client) (name : String) :
    (jsTrim name = "" → addClient clients name = (clients, false)) ∧
    (jsTrim name ≠ "" →
      addClient clients name =
        (clients ++ [{ id := if clients.length > 0 then maxClientId clients + 1 else 1,
                       name := name, tds := "pending", gstr1 := "pending",
                       gstr3b := "pending" }], true)) ∧
    ((addClient
        [{ id := 1, name := "Acme", tds := "pending", gstr1 := "pending", gstr3b := "pending" }]
        "Beta").1
      = [{ id := 1, name := "Acme", tds := "pending", gstr1 := "pending", gstr3b := "pending" },
         { id := 2, name := "Beta", tds := "pending", gstr1 := "pending", gstr3b := "pending" }]) ∧
    (deleteClient
        (addClient
          [{ id := 1, name := "Acme", tds := "pending", gstr1 := "pending", gstr3b := "pending" }]
          "Beta").1 1
      = [{ id := 2, name := "Beta", tds := "pending", gstr1 := "pending", gstr3b := "pending" }]) := by
  refine ⟨?_, ?_, by decide, by decide⟩
  · intro h
    simp [addClient, h]
  · intro h
    simp [addClient, h]

/-- C9 witness: the whitespace-rejection branch and the append branch,
both at concrete inputs. -/
theorem C9_addClient_witness :
    (addClient
      [{ id := 1, name := "Acme", tds := "pending", gstr1 := "pending", gstr3b := "pending" }]
      "   " =
      ([{ id := 1, name := "Acme", tds := "pending", gstr1 := "pending", gstr3b := "pending" }],
       false)) ∧
    (addClient
      [{ id := 1, name := "Acme", tds := "pending", gstr1 := "pending", gstr3b := "pending" }]
      "Beta").2 = true := by
  constructor
  · exact (C9_addClient
      [{ id := 1, name := "Acme", tds := "pending", gstr1 := "pending", gstr3b := "pending" }]
      "   ").1 (by decide)
  · have h := (C9_addClient
      [{ id := 1, name := "Acme", tds := "pending", gstr1 := "pending", gstr3b := "pending" }]
      "Beta").2.1 (by decide)
    rw [h]

/-! ## C10 -/

/-- The seed of a left `max` fold bounds the fold. -/
theorem le_foldl_max_init (l : List Nat) (a : Nat) : a ≤ l.foldl max a := by
  induction l generalizing a with
  | nil => exact le_refl a
  | cons b t ih => exact le_trans (le_max_left a b) (ih (max a b))

/-- Every member of a list bounds below its left `max` fold. -/
theorem mem_le_foldl_max (l : List Nat) (a x : Nat) (h : x ∈ l) : x ≤ l.foldl max a := by
  induction l generalizing a with
  | nil => cases h
  | cons b t ih =>
      rcases List.mem_cons.mp h with rfl | hx
      · exact le_trans (le_max_right a x) (le_foldl_max_init t (max a x))
      · exact ih (max a b) hx

/-- The id `addClient` would assign strictly exceeds every existing id. -/
theorem addClient_id_gt (clients : List Client) (c : Client) (hc : c ∈ clients) :
    c.id < (if clients.length > 0 then maxClientId clients + 1 else 1) := by
  have hne : clients.length > 0 := List.length_pos.mpr (List.ne_nil_of_mem hc)
  rw [if_pos hne]
  have hle : c.id ≤ maxClientId clients := by
    unfold maxClientId
    exact mem_le_foldl_max (clients.map (fun c => c.id)) 0 c.id
      (List.mem_map_of_mem (fun c => c.id) hc)
  omega

/-- C10: starting from a client list with pairwise-distinct ids, each of
`addClient`, `toggleStatus` and `deleteClient` preserves distinctness:
`addClient` assigns an id strictly greater than every existing id (the
fold realising `Math.max` of the ids, plus one), and the other two never
change any id. -/
theorem C10_distinct_ids (clients : List Client)
    (hdist : (clients.map (fun c => c.id)).Nodup) :
    (∀ name : String, ((addClient clients name).1.map (fun c => c.id)).Nodup) ∧
    (∀ name : String, jsTrim name ≠ "" → ∀ c ∈ clients,
        c.id < (if clients.length > 0 then maxClientId clients + 1 else 1)) ∧
    (∀ (i : Nat) (field : CField),
        ((toggleStatus clients i field).map (fun c => c.id)).Nodup) ∧
    (∀ i : Nat, ((deleteClient clients i).map (fun c => c.id)).Nodup) := by
  refine ⟨?_, ?_, ?_, ?_⟩
  · intro name
    by_cases h : jsTrim name = ""
    · have : addClient clients name = (clients, false) := by simp [addClient, h]
      rw [this]
      exact hdist
    · have hadd : (addClient clients name).1 =
          clients ++ [{ id := if clients.length > 0 then maxClientId clients + 1 else 1,
                        name := name, tds := "pending", gstr1 := "pending",
                        gstr3b := "pending" }] := by
        simp [addClient, h]
      rw [hadd, List.map_append]
      rw [List.nodup_append]
      refine ⟨hdist, List.nodup_singleton _, ?_⟩
      intro x hx hx'
      simp only [List.map_cons, List.map_nil, List.mem_singleton] at hx'
      obtain ⟨c, hc, rfl⟩ := List.mem_map.mp hx
      have := addClient_id_gt clients c hc
      omega
  · intro name _ c hc
    exact addClient_id_gt clients c hc
  · intro i field
    have heq : (toggleStatus clients i field).map (fun c => c.id)
        = clients.map (fun c => c.id) := by
      unfold toggleStatus
      rw [List.map_map]
      apply map_congr_pt
      intro c _
      simp only [Function.comp_apply]
      by_cases hid : c.id = i
      · rw [if_neg (not_not_intro hid)]
        exact setCF_id c field _
      · rw [if_pos hid]
    rw [heq]
    exact hdist
  · intro i
    have hsub : List.Sublist ((deleteClient clients i).map (fun c => c.id))
        (clients.map (fun c => c.id)) :=
      List.Sublist.map _ (List.filter_sublist clients)
    exact List.Nodup.sublist hsub hdist

/-- C10 witness: a concrete two-client list stays duplicate-free under an
add, a toggle and a delete. -/
theorem C10_distinct_ids_witness :
    (((addClient
        [{ id := 1, name := "Acme", tds := "pending", gstr1 := "pending", gstr3b := "pending" },
         { id := 2, name := "Beta", tds := "done", gstr1 := "na", gstr3b := "pending" }]
        "Gamma").1.map (fun c => c.id)).Nodup) ∧
    (((toggleStatus
        [{ id := 1, name := "Acme", tds := "pending", gstr1 := "pending", gstr3b := "pending" },
         { id := 2, name := "Beta", tds := "done", gstr1 := "na", gstr3b := "pending" }]
        2 CField.tds).map (fun c => c.id)).Nodup) := by
  have h := C10_distinct_ids
    [{ id := 1, name := "Acme", tds := "pending", gstr1 := "pending", gstr3b := "pending" },
     { id := 2, name := "Beta", tds := "done", gstr1 := "na", gstr3b := "pending" }]
    (by decide)
  exact ⟨h.1 "Gamma", h.2.2.1 2 CField.tds⟩
